import Mathlib

/-!
Shallow embedding of the attachment-style quiz backend (src/main.py).

Scores are modelled as rationals (`ℚ`): the Python code sums answer scores
and divides by the count, and all claims under study concern exact values,
where rational arithmetic coincides with the source's float arithmetic.
The HTTP layer is out of scope; `HTTPException(status_code=400, detail=msg)`
is modelled as `Except.error msg`, and the persistence collaborator
`create_document` as a log of attempted calls together with a boolean saying
whether the collaborator failed (the Python `try/except` swallows a failure).
-/

/-- A record of the static question bank `QUESTIONS` in main.py:
each dict has keys "id", "text" and "factor". -/
structure Question where
  id : String
  text : String
  factor : String
deriving DecidableEq

/-- The question bank `QUESTIONS` (main.py lines 26-41), in source order. -/
def QUESTIONS : List Question := [
  ⟨"A1", "I prefer not to show a partner how I feel deep down.", "avoidance"⟩,
  ⟨"A2", "I find it difficult to depend on close others.", "avoidance"⟩,
  ⟨"A3", "I don't feel comfortable opening up to romantic partners.", "avoidance"⟩,
  ⟨"A4", "I prefer not to be too close to others.", "avoidance"⟩,
  ⟨"A5", "It's important for me to feel independent from others.", "avoidance"⟩,
  ⟨"A6", "I want to get close, but I keep people at arm’s length.", "avoidance"⟩,
  ⟨"X1", "I worry about being abandoned.", "anxiety"⟩,
  ⟨"X2", "I often worry my partner doesn't really love me.", "anxiety"⟩,
  ⟨"X3", "I need a lot of reassurance from close others.", "anxiety"⟩,
  ⟨"X4", "I worry that romantic partners won’t care as much as I do.", "anxiety"⟩,
  ⟨"X5", "I get frustrated if I don't get the closeness I want.", "anxiety"⟩,
  ⟨"X6", "I fear being alone more than most people.", "anxiety"⟩]

/-- `QuizAnswer` (schemas, used by main.py): a question id and a score. -/
structure QuizAnswer where
  question_id : String
  score : ℚ
deriving DecidableEq

/-- The dict `qmap` built by comprehension over `QUESTIONS` read at a key:
the bank's question with the given id, if any. Ids in `QUESTIONS` are
unique, so first-match lookup agrees with the Python dict. -/
def lookupQuestion (qid : String) : Option Question :=
  QUESTIONS.find? (fun q => q.id = qid)

/-- The result triple of `classify_style` (main.py lines 83-118):
`style, prevalence, recs`. -/
structure Classification where
  style : String
  prevalence : String
  recs : List String
deriving DecidableEq

/-- `classify_style` (main.py lines 83-118): threshold split at 4.0 on both
axes, with the low branch taken on strict `<`. -/
def classify_style (anxiety avoidance : ℚ) : Classification :=
  let thr : ℚ := 4
  if anxiety < thr ∧ avoidance < thr then
    { style := "Secure"
      prevalence := "~50% of adults in community samples"
      recs := [
        "Maintain open communication and healthy boundaries.",
        "Continue investing in supportive relationships.",
        "Practice self-reflection to keep patterns secure under stress."] }
  else if anxiety ≥ thr ∧ avoidance < thr then
    { style := "Anxious (Preoccupied)"
      prevalence := "~20%"
      recs := [
        "Build self-soothing routines (breathing, grounding).",
        "Communicate needs clearly without protest behaviors.",
        "Seek consistent, responsive partners or therapists."] }
  else if anxiety < thr ∧ avoidance ≥ thr then
    { style := "Avoidant (Dismissive)"
      prevalence := "~25%"
      recs := [
        "Practice expressing needs and accepting help.",
        "Experiment with gradual intimacy and repair attempts.",
        "Reflect on autonomy vs. connection to find balance."] }
  else
    { style := "Fearful-Avoidant (Disorganized)"
      prevalence := "~5–10%"
      recs := [
        "Work on trauma-informed stabilization with a professional.",
        "Develop consistent routines for safety and connection.",
        "Use titrated exposure to intimacy with trusted others."] }

/-- The answer loop of `compute_scores` (main.py lines 72-76): walk the
answers in order, appending each score to its factor's bucket in
`factor_scores`; an unknown question id raises HTTP 400 (here
`Except.error` with the Python message); a factor other than the dict's
two keys would be a Python `KeyError` (unreachable over the bank
`QUESTIONS`, whose factors are all "anxiety" or "avoidance"). -/
def computeScoresAux : List QuizAnswer → List ℚ → List ℚ → Except String (List ℚ × List ℚ)
  | [], anx, avd => .ok (anx, avd)
  | ans :: rest, anx, avd =>
    match lookupQuestion ans.question_id with
    | none => .error ("Unknown question id: " ++ ans.question_id)
    | some q =>
      if q.factor = "anxiety" then
        computeScoresAux rest (anx ++ [ans.score]) avd
      else if q.factor = "avoidance" then
        computeScoresAux rest anx (avd ++ [ans.score])
      else
        .error ("KeyError: " ++ q.factor)

/-- `compute_scores` (main.py lines 68-80): bucket the answers by factor,
then per factor return `sum(scores) / max(1, len(scores))`. -/
def compute_scores (answers : List QuizAnswer) : Except String (ℚ × ℚ) :=
  match computeScoresAux answers [] [] with
  | .error e => .error e
  | .ok (anx, avd) =>
    .ok (anx.sum / ((max 1 anx.length : ℕ) : ℚ),
         avd.sum / ((max 1 avd.length : ℕ) : ℚ))

/-- Round to the nearest integer with ties to even: the rounding rule of
Python's builtin `round`, stated over exact rationals. -/
def roundHalfEven (q : ℚ) : ℤ :=
  if Int.fract q < 1/2 then ⌊q⌋
  else if 1/2 < Int.fract q then ⌊q⌋ + 1
  else if 2 ∣ ⌊q⌋ then ⌊q⌋ else ⌊q⌋ + 1

/-- `round(x, 2)` as used on main.py lines 144-145, over exact rationals. -/
def round2 (q : ℚ) : ℚ := ((roundHalfEven (q * 100) : ℤ) : ℚ) / 100

/-- The body of `SubmitPayload` (main.py lines 59-61); `meta` is modelled
as a string association list, its values never being inspected. -/
structure SubmitPayload where
  answers : List QuizAnswer
  meta : List (String × String)
deriving DecidableEq

/-- `QuizResult` (schemas, constructed on main.py lines 125-133). -/
structure QuizResult where
  answers : List QuizAnswer
  anxiety_score : ℚ
  avoidance_score : ℚ
  style : String
  prevalence : String
  recommendations : List String
  meta : List (String × String)
deriving DecidableEq

/-- The JSON object returned by `submit_quiz` (main.py lines 142-149). -/
structure SubmitResponse where
  style : String
  anxiety_score : ℚ
  avoidance_score : ℚ
  prevalence : String
  recommendations : List String
  explanation : String
deriving DecidableEq

/-- One attempted call to the persistence collaborator
`create_document(collection, record)` (main.py line 137), with whether the
collaborator succeeded. -/
structure PersistCall where
  collection : String
  record : QuizResult
  succeeded : Bool
deriving DecidableEq

/-- `submit_quiz` (main.py lines 121-149). `persistFails` models whether
`create_document` raises; the surrounding `try/except Exception: pass`
swallows the failure, so it can only show up in the persistence log, never
in the returned value. The result pairs the HTTP outcome (an
`HTTPException` becomes `Except.error`) with the log of persistence calls
attempted. `payload.meta or \x7b\x7d` equals `payload.meta` for a list
model, the empty list being mapped to the empty list. -/
def submit_quiz (persistFails : Bool) (payload : SubmitPayload) :
    Except String SubmitResponse × List PersistCall :=
  match compute_scores payload.answers with
  | .error e => (.error e, [])
  | .ok (anxiety, avoidance) =>
    let c := classify_style anxiety avoidance
    let result : QuizResult := {
      answers := payload.answers
      anxiety_score := anxiety
      avoidance_score := avoidance
      style := c.style
      prevalence := c.prevalence
      recommendations := c.recs
      meta := payload.meta }
    (.ok {
      style := c.style
      anxiety_score := round2 anxiety
      avoidance_score := round2 avoidance
      prevalence := c.prevalence
      recommendations := c.recs
      explanation := "Scores are computed on two dimensions (anxiety and avoidance) derived from the validated ECR-R measure." },
     [{ collection := "quizresult", record := result, succeeded := !persistFails }])

/-- A question record as exposed to clients: only id and text. -/
structure PublicQuestion where
  id : String
  text : String
deriving DecidableEq

/-- The projection applied to a bank in `get_questions` (main.py line 65). -/
def publicView (bank : List Question) : List PublicQuestion :=
  bank.map (fun q => { id := q.id, text := q.text })

/-- The "questions" field of `get_questions` (main.py lines 63-65); the
endpoint additionally returns the static `SCALE_INFO` verbatim. -/
def get_questions : List PublicQuestion := publicView QUESTIONS

/-- Spec-side view: the scores among `answers` whose question's factor is
the given one, in input order. -/
def scoresFor (factor : String) (answers : List QuizAnswer) : List ℚ :=
  answers.filterMap (fun a =>
    match lookupQuestion a.question_id with
    | some q => if q.factor = factor then some a.score else none
    | none => none)

/-- Spec-side view: arithmetic mean with the mean-of-empty convention. -/
def meanOrZero (l : List ℚ) : ℚ :=
  if l.length = 0 then 0 else l.sum / l.length

/-- An answer whose question id exists in the bank. -/
def validAnswer (a : QuizAnswer) : Bool :=
  (lookupQuestion a.question_id).isSome

/-- A question found by `lookupQuestion` is a question of the bank. -/
lemma mem_of_lookup {qid : String} {q : Question}
    (h : lookupQuestion qid = some q) : q ∈ QUESTIONS :=
  List.mem_of_find?_eq_some h

/-- Every question of the bank carries one of the two factor tags, so the
bucketing loop never reaches its `KeyError` case. -/
lemma factor_dichotomy :
    ∀ q ∈ QUESTIONS, q.factor = "anxiety" ∨ q.factor = "avoidance" := by decide

/-- A valid answer's lookup yields a question. -/
lemma valid_lookup {a : QuizAnswer} (h : validAnswer a = true) :
    ∃ q, lookupQuestion a.question_id = some q := by
  unfold validAnswer at h
  cases hl : lookupQuestion a.question_id with
  | none => rw [hl] at h; simp at h
  | some q => exact ⟨q, rfl⟩

/-- An invalid answer's lookup yields nothing. -/
lemma invalid_lookup {a : QuizAnswer} (h : validAnswer a = false) :
    lookupQuestion a.question_id = none := by
  unfold validAnswer at h
  cases hl : lookupQuestion a.question_id with
  | none => rfl
  | some q => rw [hl] at h; simp at h

/-- On a list of valid answers the bucketing loop succeeds and appends each
factor's scores, in input order, to the given accumulators. -/
lemma computeScoresAux_ok :
    ∀ (l : List QuizAnswer), (∀ a ∈ l, validAnswer a = true) →
    ∀ anx avd, computeScoresAux l anx avd =
      .ok (anx ++ scoresFor "anxiety" l, avd ++ scoresFor "avoidance" l) := by
  intro l
  induction l with
  | nil => intro _ anx avd; simp [computeScoresAux, scoresFor]
  | cons a rest ih =>
    intro h anx avd
    obtain ⟨q, hq⟩ := valid_lookup (h a (List.mem_cons_self a rest))
    have hrest : ∀ x ∈ rest, validAnswer x = true :=
      fun x hx => h x (List.mem_cons_of_mem _ hx)
    rcases factor_dichotomy q (mem_of_lookup hq) with hf | hf
    · simp [computeScoresAux, hq, hf, ih hrest, scoresFor, List.filterMap_cons]
    · simp [computeScoresAux, hq, hf, ih hrest, scoresFor, List.filterMap_cons]

/-- The source's `sum(scores) / max(1, len(scores))` equals the mean with
the mean-of-empty-is-zero convention. -/
lemma sum_div_max (l : List ℚ) :
    l.sum / ((max 1 l.length : ℕ) : ℚ) = meanOrZero l := by
  cases l with
  | nil => simp [meanOrZero]
  | cons x xs =>
    have h1 : max 1 (x :: xs).length = (x :: xs).length :=
      Nat.max_eq_right (Nat.succ_le_succ (Nat.zero_le _))
    simp [meanOrZero, h1]

/-- On valid answers `compute_scores` returns the per-factor means. -/
lemma compute_scores_eq (answers : List QuizAnswer)
    (h : ∀ a ∈ answers, validAnswer a = true) :
    compute_scores answers =
      .ok (meanOrZero (scoresFor "anxiety" answers),
           meanOrZero (scoresFor "avoidance" answers)) := by
  unfold compute_scores
  rw [computeScoresAux_ok answers h [] []]
  dsimp only [List.nil_append]
  rw [sum_div_max, sum_div_max]

/-- When some answer is invalid the bucketing loop fails with the Python
error message naming an offending id. -/
lemma computeScoresAux_error :
    ∀ (l : List QuizAnswer), (∃ a ∈ l, validAnswer a = false) →
    ∀ anx avd, ∃ a ∈ l, lookupQuestion a.question_id = none ∧
      computeScoresAux l anx avd =
        .error ("Unknown question id: " ++ a.question_id) := by
  intro l
  induction l with
  | nil => rintro ⟨a, ha, _⟩; cases ha
  | cons a rest ih =>
    rintro ⟨b, hb, hbv⟩ anx avd
    by_cases hav : validAnswer a = true
    · have hbrest : b ∈ rest := by
        rcases List.mem_cons.mp hb with rfl | hr
        · rw [hav] at hbv; cases hbv
        · exact hr
      obtain ⟨q, hq⟩ := valid_lookup hav
      rcases factor_dichotomy q (mem_of_lookup hq) with hf | hf
      · obtain ⟨c, hc, hcn, hce⟩ := ih ⟨b, hbrest, hbv⟩ (anx ++ [a.score]) avd
        exact ⟨c, List.mem_cons_of_mem _ hc, hcn, by
          simp only [computeScoresAux, hq, hf]; simpa using hce⟩
      · obtain ⟨c, hc, hcn, hce⟩ := ih ⟨b, hbrest, hbv⟩ anx (avd ++ [a.score])
        exact ⟨c, List.mem_cons_of_mem _ hc, hcn, by
          simp only [computeScoresAux, hq, hf]; simpa using hce⟩
    · have hn : lookupQuestion a.question_id = none :=
        invalid_lookup (Bool.not_eq_true _ ▸ Bool.of_not_eq_true hav)
      exact ⟨a, List.mem_cons_self a rest, hn, by simp [computeScoresAux, hn]⟩

/-- When some answer is invalid `compute_scores` fails with the Python
error message naming an offending id. -/
lemma compute_scores_error (answers : List QuizAnswer)
    (h : ∃ a ∈ answers, validAnswer a = false) :
    ∃ a ∈ answers, lookupQuestion a.question_id = none ∧
      compute_scores answers =
        .error ("Unknown question id: " ++ a.question_id) := by
  obtain ⟨a, ha, hn, he⟩ := computeScoresAux_error answers h [] []
  exact ⟨a, ha, hn, by unfold compute_scores; rw [he]⟩

/-- Branch of `classify_style` for anxiety and avoidance both below 4. -/
lemma classify_style_low_low {a v : ℚ} (ha : a < 4) (hv : v < 4) :
    (classify_style a v).style = "Secure" := by
  simp only [classify_style]
  rw [if_pos ⟨ha, hv⟩]

/-- Branch of `classify_style` for anxiety at or above 4, avoidance below. -/
lemma classify_style_high_low {a v : ℚ} (ha : 4 ≤ a) (hv : v < 4) :
    (classify_style a v).style = "Anxious (Preoccupied)" := by
  simp only [classify_style]
  rw [if_neg (fun hc => absurd hc.1 (not_lt.mpr ha)), if_pos ⟨ha, hv⟩]

/-- Branch of `classify_style` for anxiety below 4, avoidance at or above. -/
lemma classify_style_low_high {a v : ℚ} (ha : a < 4) (hv : 4 ≤ v) :
    (classify_style a v).style = "Avoidant (Dismissive)" := by
  simp only [classify_style]
  rw [if_neg (fun hc => absurd hc.2 (not_lt.mpr hv)),
    if_neg (fun hc => absurd hc.2 (not_lt.mpr hv)), if_pos ⟨ha, hv⟩]

/-- Branch of `classify_style` for anxiety and avoidance both at or above 4. -/
lemma classify_style_high_high {a v : ℚ} (ha : 4 ≤ a) (hv : 4 ≤ v) :
    (classify_style a v).style = "Fearful-Avoidant (Disorganized)" := by
  simp only [classify_style]
  rw [if_neg (fun hc => absurd hc.1 (not_lt.mpr ha)),
    if_neg (fun hc => absurd hc.2 (not_lt.mpr hv)),
    if_neg (fun hc => absurd hc.1 (not_lt.mpr ha))]

/-- Evaluation of the Python `round(x, 2)` at the spec's example: the exact
mean 14/3 = 4.666... rounds to 4.67. -/
lemma round2_fourteen_thirds : round2 (14/3) = 467/100 := by
  unfold round2 roundHalfEven
  norm_num [Int.fract]

/-- C1: `classify_style` implements the fixed decision table with threshold
4.0, strict less-than routing to the low branch: the style is "Secure" iff
both scores are below 4, "Anxious (Preoccupied)" iff anxiety is at or above
4 and avoidance below, "Avoidant (Dismissive)" iff anxiety is below 4 and
avoidance at or above, and "Fearful-Avoidant (Disorganized)" iff both are
at or above 4; the four iffs make the branches an exhaustive, mutually
exclusive partition of the plane, and in particular the boundary point
(4, 4) is classified "Fearful-Avoidant (Disorganized)". -/
theorem classify_style_partition (a v : ℚ) :
    ((classify_style a v).style = "Secure" ↔ a < 4 ∧ v < 4) ∧
    ((classify_style a v).style = "Anxious (Preoccupied)" ↔ 4 ≤ a ∧ v < 4) ∧
    ((classify_style a v).style = "Avoidant (Dismissive)" ↔ a < 4 ∧ 4 ≤ v) ∧
    ((classify_style a v).style = "Fearful-Avoidant (Disorganized)" ↔ 4 ≤ a ∧ 4 ≤ v) ∧
    (classify_style 4 4).style = "Fearful-Avoidant (Disorganized)" := by
  have h44 := classify_style_high_high (le_refl (4 : ℚ)) (le_refl (4 : ℚ))
  rcases lt_or_le a 4 with ha | ha <;> rcases lt_or_le v 4 with hv | hv
  · simp [classify_style_low_low ha hv, h44, ha, hv, not_le.mpr ha, not_le.mpr hv]
  · simp [classify_style_low_high ha hv, h44, ha, hv, not_le.mpr ha, not_lt.mpr hv]
  · simp [classify_style_high_low ha hv, h44, ha, hv, not_lt.mpr ha, not_le.mpr hv]
  · simp [classify_style_high_high ha hv, h44, ha, hv, not_lt.mpr ha, not_lt.mpr hv]

/-- C2: on any list of answers whose question ids all exist in the bank,
`compute_scores` succeeds (never an error, and over ℚ never a NaN) and
returns for each factor the arithmetic mean of that factor's scores, with
0 when the factor has no matching answers. -/
theorem compute_scores_factor_mean (answers : List QuizAnswer)
    (h : ∀ a ∈ answers, validAnswer a = true) :
    compute_scores answers =
      .ok (meanOrZero (scoresFor "anxiety" answers),
           meanOrZero (scoresFor "avoidance" answers)) :=
  compute_scores_eq answers h

/-- Witness for C2 at the spec's own data point: anxiety answers
X1 at 6, X2 at 4, X3 at 2 give anxiety mean exactly 4 and avoidance 0. -/
theorem compute_scores_factor_mean_witness :
    compute_scores [⟨"X1", 6⟩, ⟨"X2", 4⟩, ⟨"X3", 2⟩] = .ok (4, 0) := by
  have h := compute_scores_factor_mean [⟨"X1", 6⟩, ⟨"X2", 4⟩, ⟨"X3", 2⟩] (by decide)
  rw [h]
  simp [scoresFor, meanOrZero, lookupQuestion, QUESTIONS]
  norm_num

/-- C3: a submission containing an answer with an unknown question id is
rejected whole: `submit_quiz` returns the client error (HTTP 400) whose
message names the offending id, and the persistence log is empty, so no
QuizResult was constructed and `create_document` was never called. -/
theorem submit_quiz_unknown_id (pf : Bool) (payload : SubmitPayload)
    (h : ∃ a ∈ payload.answers, validAnswer a = false) :
    ∃ a ∈ payload.answers, lookupQuestion a.question_id = none ∧
      submit_quiz pf payload =
        (.error ("Unknown question id: " ++ a.question_id), []) := by
  obtain ⟨a, ha, hn, he⟩ := compute_scores_error payload.answers h
  exact ⟨a, ha, hn, by unfold submit_quiz; rw [he]⟩

/-- Witness for C3 at the spec's example id "Z9". -/
theorem submit_quiz_unknown_id_witness :
    ∃ a ∈ (SubmitPayload.mk [⟨"Z9", 3⟩] []).answers,
      lookupQuestion a.question_id = none ∧
      submit_quiz false ⟨[⟨"Z9", 3⟩], []⟩ =
        (.error ("Unknown question id: " ++ a.question_id), []) :=
  submit_quiz_unknown_id false ⟨[⟨"Z9", 3⟩], []⟩ ⟨⟨"Z9", 3⟩, by decide, by decide⟩

/-- C4, counterexample: contrary to the claim, `classify_style` at
anxiety = 3.999 and avoidance = 4.0 does not return "Anxious (Preoccupied)". -/
theorem classify_style_claimed_anxious_false :
    ¬ ((classify_style (3999/1000) 4).style = "Anxious (Preoccupied)") := by
  rw [classify_style_low_high (by norm_num) (by norm_num)]
  decide

/-- C4, amended: `classify_style` applied to anxiety = 3.999 and
avoidance = 4.0 returns the style "Avoidant (Dismissive)" (anxiety is on
the low side of the threshold, avoidance on the high side). -/
theorem classify_style_low_anxiety_at_threshold_avoidance :
    (classify_style (3999/1000) 4).style = "Avoidant (Dismissive)" :=
  classify_style_low_high (by norm_num) (by norm_num)

/-- C5: the value `submit_quiz` returns to the caller is identical whether
the persistence collaborator fails or succeeds; the `try/except` swallows
the failure, so it never aborts or alters the response. -/
theorem submit_quiz_persist_transparent (pf pf' : Bool) (payload : SubmitPayload) :
    (submit_quiz pf payload).1 = (submit_quiz pf' payload).1 := by
  unfold submit_quiz
  rcases compute_scores payload.answers with e | ⟨anx, avd⟩ <;> rfl

/-- C6: on a valid submission the externally returned response carries the
computed means rounded to 2 decimal places while the QuizResult handed to
the persistence collaborator carries the unrounded means, and style,
prevalence and recommendations agree between the two; at the spec's
example, 14/3 = 4.666... rounds to 4.67. -/
theorem submit_quiz_rounding (pf : Bool) (payload : SubmitPayload)
    (h : ∀ a ∈ payload.answers, validAnswer a = true) :
    ∃ resp call, submit_quiz pf payload = (.ok resp, [call]) ∧
      compute_scores payload.answers =
        .ok (call.record.anxiety_score, call.record.avoidance_score) ∧
      resp.anxiety_score = round2 call.record.anxiety_score ∧
      resp.avoidance_score = round2 call.record.avoidance_score ∧
      resp.style = call.record.style ∧
      resp.prevalence = call.record.prevalence ∧
      resp.recommendations = call.record.recommendations ∧
      round2 (14/3) = 467/100 := by
  have hcs := compute_scores_eq payload.answers h
  unfold submit_quiz
  rw [hcs]
  exact ⟨_, _, rfl, rfl, rfl, rfl, rfl, rfl, rfl, round2_fourteen_thirds⟩

/-- Witness for C6 at a submission whose anxiety mean is 14/3. -/
theorem submit_quiz_rounding_witness :
    ∃ resp call,
      submit_quiz false ⟨[⟨"X1", 6⟩, ⟨"X2", 4⟩, ⟨"X3", 4⟩], []⟩ = (.ok resp, [call]) ∧
      compute_scores [⟨"X1", 6⟩, ⟨"X2", 4⟩, ⟨"X3", 4⟩] =
        .ok (call.record.anxiety_score, call.record.avoidance_score) ∧
      resp.anxiety_score = round2 call.record.anxiety_score ∧
      resp.avoidance_score = round2 call.record.avoidance_score ∧
      resp.style = call.record.style ∧
      resp.prevalence = call.record.prevalence ∧
      resp.recommendations = call.record.recommendations ∧
      round2 (14/3) = 467/100 :=
  submit_quiz_rounding false ⟨[⟨"X1", 6⟩, ⟨"X2", 4⟩, ⟨"X3", 4⟩], []⟩ (by decide)

/-- C7: `get_questions` exposes the bank's questions in their defined
order, each record holding exactly the id and the text, and the output is
blind to the factor: any two banks that agree on ids and texts produce the
same client view no matter their factors. -/
theorem get_questions_contract :
    (∀ i : ℕ, get_questions[i]? =
      (QUESTIONS[i]?).map (fun q => ({ id := q.id, text := q.text } : PublicQuestion))) ∧
    (∀ bank bank' : List Question,
      List.Forall₂ (fun q q' => q.id = q'.id ∧ q.text = q'.text) bank bank' →
      publicView bank = publicView bank') := by
  constructor
  · intro i
    simp [get_questions, publicView, List.getElem?_map]
  · intro bank bank' h
    induction h with
    | nil => rfl
    | cons hq _ ih =>
      simp only [publicView, List.map_cons] at ih ⊢
      rw [hq.1, hq.2, ih]

/-- C8: `compute_scores` has no ordering dependency: over exact scores any
permutation of a list of valid answers yields the same pair of means. -/
theorem compute_scores_perm_invariant (l l' : List QuizAnswer) (hp : l.Perm l')
    (h : ∀ a ∈ l, validAnswer a = true) :
    compute_scores l = compute_scores l' := by
  have h' : ∀ a ∈ l', validAnswer a = true := fun a ha => h a (hp.mem_iff.mpr ha)
  rw [compute_scores_eq l h, compute_scores_eq l' h']
  have hmean : ∀ f : String,
      meanOrZero (scoresFor f l) = meanOrZero (scoresFor f l') := by
    intro f
    have hsf : (scoresFor f l).Perm (scoresFor f l') := hp.filterMap _
    unfold meanOrZero
    rw [hsf.length_eq, hsf.sum_eq]
  rw [hmean "anxiety", hmean "avoidance"]

/-- Witness for C8 at a concrete two-element swap. -/
theorem compute_scores_perm_invariant_witness :
    compute_scores [⟨"X1", 6⟩, ⟨"A1", 2⟩] = compute_scores [⟨"A1", 2⟩, ⟨"X1", 6⟩] :=
  compute_scores_perm_invariant _ _ (List.Perm.swap _ _ _) (by decide)

/-- C9: scoring raises an error if and only if some answer's question id is
not in the bank, both at the `compute_scores` level and for the whole
submission; no validation error exists for out-of-range scores, which
participate in the mean like any others: the concrete submission with
scores 0 and 99 on two anxiety questions is accepted with mean 99/2. -/
theorem error_iff_unknown_question :
    (∀ answers : List QuizAnswer,
      (∃ e, compute_scores answers = .error e) ↔
      ∃ a ∈ answers, validAnswer a = false) ∧
    (∀ (pf : Bool) (payload : SubmitPayload),
      (∃ e, (submit_quiz pf payload).1 = .error e) ↔
      ∃ a ∈ payload.answers, validAnswer a = false) ∧
    compute_scores [⟨"X1", 0⟩, ⟨"X2", 99⟩] = .ok (99/2, 0) := by
  have hmain : ∀ answers : List QuizAnswer,
      (∃ e, compute_scores answers = .error e) ↔
      ∃ a ∈ answers, validAnswer a = false := by
    intro answers
    constructor
    · rintro ⟨e, he⟩
      by_contra hno
      push_neg at hno
      have h : ∀ a ∈ answers, validAnswer a = true := by
        intro a ha
        cases hb : validAnswer a with
        | false => exact absurd hb (hno a ha)
        | true => rfl
      rw [compute_scores_eq answers h] at he
      cases he
    · intro hex
      obtain ⟨a, ha, _, he⟩ := compute_scores_error answers hex
      exact ⟨_, he⟩
  have hsub : ∀ (pf : Bool) (payload : SubmitPayload),
      (∃ e, (submit_quiz pf payload).1 = .error e) ↔
      (∃ e, compute_scores payload.answers = .error e) := by
    intro pf payload
    unfold submit_quiz
    rcases hcs : compute_scores payload.answers with e | p
    · simp
    · rcases p with ⟨anx, avd⟩
      simp
  refine ⟨hmain, fun pf payload => (hsub pf payload).trans (hmain payload.answers), ?_⟩
  simp [compute_scores, computeScoresAux, lookupQuestion, QUESTIONS]

/-- C10: a submission with no answers succeeds: both factor means default
to 0, both sit below the threshold, and the response has style "Secure"
with anxiety and avoidance scores 0. -/
theorem submit_quiz_empty_answers (pf : Bool) :
    compute_scores [] = .ok (0, 0) ∧
    ∃ resp, (submit_quiz pf ⟨[], []⟩).1 = .ok resp ∧
      resp.style = "Secure" ∧ resp.anxiety_score = 0 ∧ resp.avoidance_score = 0 := by
  have h0 : compute_scores [] = Except.ok ((0 : ℚ), (0 : ℚ)) := by
    simp [compute_scores, computeScoresAux]
  have hr : round2 0 = 0 := by
    unfold round2 roundHalfEven
    norm_num [Int.fract]
  have hc : (classify_style 0 0).style = "Secure" :=
    classify_style_low_low (by norm_num) (by norm_num)
  have h1 : (submit_quiz pf ⟨[], []⟩).1 = Except.ok {
      style := (classify_style 0 0).style
      anxiety_score := round2 0
      avoidance_score := round2 0
      prevalence := (classify_style 0 0).prevalence
      recommendations := (classify_style 0 0).recs
      explanation := "Scores are computed on two dimensions (anxiety and avoidance) derived from the validated ECR-R measure." } := by
    unfold submit_quiz
    rw [h0]
  exact ⟨h0, ⟨_, h1, hc, hr, hr⟩⟩
